import Mathlib

/-!
Shallow embedding of the estimation engine of `qtm_spec`
(`rb_analysis_functions.py`, `decay_analysis_functions.py`,
`spam_reporting_functions.py`, `combined_analysis.py`).

Machine floats are modelled by real numbers; `scipy.optimize.curve_fit`
(an iterative external optimizer) is abstracted as a function parameter
wherever a pipeline calls it, so that the structure of each pipeline —
which tables are handed to the fit, which conversions are applied —
is embedded faithfully.  Python functions that fall through their
`if`/`elif` chains with an unbound local (raising at runtime) are
embedded with `Option`, `none` marking the error.
-/

noncomputable section

/-- Model of `np.mean` on a list of reals: sum divided by length. -/
def listMean (l : List ℝ) : ℝ := l.sum / l.length

/-- Model of `np.quantile(vals, q)` with the default linear interpolation:
sort, take virtual index `q * (n - 1)`, interpolate between the two
neighbouring order statistics. -/
def npQuantile (vals : List ℝ) (q : ℝ) : ℝ :=
  let s := vals.insertionSort (· ≤ ·)
  let h : ℝ := q * ((s.length : ℝ) - 1)
  let i : ℕ := (⌊h⌋).toNat
  let lo := s.getD i 0
  let hi := s.getD (min (i + 1) (s.length - 1)) 0
  lo + (h - ⌊h⌋) * (hi - lo)

/-- Model of `scipy.special.erf`: the Gauss error function. -/
def erf (x : ℝ) : ℝ := 2 / Real.sqrt Real.pi * ∫ t in (0:ℝ)..x, Real.exp (-t ^ 2)

/-- The quantile threshold `1/2 + erf(1/sqrt(2))/2` used by both
bootstrap routines (one-sigma-equivalent two-sided quantile). -/
def thresh : ℝ := 1 / 2 + erf (1 / Real.sqrt 2) / 2

/-- The `(lower, upper)` pair both bootstrap routines derive from one
metric's resampled values: `2*mean - quantile(vals, thresh)` and
`2*mean - quantile(vals, 1 - thresh)`. -/
def boot_uncertainty (vals : List ℝ) : ℝ × ℝ :=
  (2 * listMean vals - npQuantile vals thresh,
   2 * listMean vals - npQuantile vals (1 - thresh))

/-- Membership of `pat` as a contiguous sublist of `l`
(Python's `pat in s` on strings). -/
def containsSub : List Char → List Char → Bool
  | [], pat => pat.isEmpty
  | a :: t, pat => pat.isPrefixOf (a :: t) || containsSub t pat

/-- Python's substring test `pat in s`. -/
def strContains (s pat : String) : Bool := containsSub s.toList pat.toList

namespace rb_analysis_functions

/-- Embedding of `convert_params` of `rb_analysis_functions.py`: convert raw fit
parameters to standard metrics.  `none` models the `UnboundLocalError`
raised on an unrecognized `data_type`. -/
def convert_params (fit_params : ℝ × ℝ) (nqubits : ℕ) (data_type : String) :
    Option (ℝ × ℝ) :=
  let ntq : ℝ := if nqubits = 2 then 1.5 else 1
  if data_type = "survival" then
    some (fit_params.1 + 1 / 2 ^ nqubits,
      ((2 ^ nqubits - 1) * fit_params.2 ^ (1 / ntq) + 1) / 2 ^ nqubits)
  else if data_type = "leakage_postselect" then
    some (fit_params.1, 1 - (1 - fit_params.2) / ntq)
  else none

/-- Embedding of `convert_metrics` of `rb_analysis_functions.py`: convert standard
metrics back to raw fit parameters. -/
def convert_metrics (metrics_params : ℝ × ℝ) (nqubits : ℕ) (data_type : String) :
    Option (ℝ × ℝ) :=
  let ntq : ℝ := if nqubits = 2 then 1.5 else 1
  if data_type = "survival" then
    some (metrics_params.1 - 1 / 2 ^ nqubits,
      ((2 ^ nqubits * metrics_params.2 - 1) / (2 ^ nqubits - 1)) ^ ntq)
  else if data_type = "leakage_postselect" then
    some (metrics_params.1, 1 - ntq * (1 - metrics_params.2) / 2)
  else none

/-- Embedding of `exponential_with_asymptote`: 0th order RB survival equation
`A * r ** seq_len + asympt`, at integer sequence lengths. -/
def exponential_with_asymptote (seq_len : ℕ) (A r asympt : ℝ) : ℝ :=
  A * r ^ seq_len + asympt

/-- Embedding of `expoential_fit` of `rb_analysis_functions.py`.  The call to
`scipy.optimize.curve_fit` is abstracted by `curveFit`, which receives
the asymptote, the initial guess and the data, and returns the raw fit
pair; the surrounding model/guess selection and the final
`convert_params` are embedded as in the source.  `none` models the
`UnboundLocalError` raised on an unrecognized `data_type`. -/
def expoential_fit (curveFit : ℝ → List ℝ → List ℕ → List ℝ → ℝ × ℝ)
    (seq_lengths : List ℕ) (survival_means : List ℝ) (nqubits : ℕ)
    (initial_guess : Option (List ℝ)) (data_type : String) : Option (ℝ × ℝ) :=
  if data_type = "survival" then
    let asympt : ℝ := 1 / 2 ^ nqubits
    let guess := initial_guess.getD [1 - 1 / 2 ^ nqubits, 0.99]
    convert_params (curveFit asympt guess seq_lengths survival_means) nqubits data_type
  else if data_type = "leakage_postselect" then
    let asympt : ℝ := 0
    let guess := initial_guess.getD [1, 0.99]
    convert_params (curveFit asympt guess seq_lengths survival_means) nqubits data_type
  else none

end rb_analysis_functions

namespace decay_analysis_functions

/-- Embedding of `measurement_crosstalk`: bright state population with measurement
errors, `(1/3)*(1 + spam + exp(-3*gamma*m)*(2 - 4*spam))`. -/
def measurement_crosstalk (m : ℕ) (spam gamma : ℝ) : ℝ :=
  1 / 3 * (1 + spam + Real.exp (-3 * gamma * m) * (2 - 4 * spam))

/-- Embedding of `reset_crosstalk`: bright state population with reset errors,
`spam + (1/3)*exp(-5*gamma*m)*(2 + exp(3*gamma*m))*(1 - 2*spam)`. -/
def reset_crosstalk (m : ℕ) (spam gamma : ℝ) : ℝ :=
  spam + 1 / 3 * Real.exp (-5 * gamma * m) * (2 + Real.exp (3 * gamma * m)) *
    (1 - 2 * spam)

/-- Embedding of `convert_params` of `decay_analysis_functions.py`.  `none` models
the `UnboundLocalError` raised on an unrecognized `decay_type`. -/
def convert_params (fit_param : ℝ × ℝ) (decay_type : String) : Option (ℝ × ℝ) :=
  if decay_type = "Measurement_crosstalk" then
    some (fit_param.1, 5 * fit_param.2 / 6)
  else if decay_type = "Reset_crosstalk" then
    some (fit_param.1, 5 * fit_param.2 / 3)
  else none

/-- Embedding of `convert_metrics` of `decay_analysis_functions.py`. -/
def convert_metrics (metrics_param : ℝ × ℝ) (decay_type : String) : Option (ℝ × ℝ) :=
  if decay_type = "Measurement_crosstalk" then
    some (metrics_param.1, 6 * metrics_param.2 / 5)
  else if decay_type = "Reset_crosstalk" then
    some (metrics_param.1, 3 * metrics_param.2 / 5)
  else none

/-- Embedding of `decay_fit` of `decay_analysis_functions.py`: select the decay
model by tag, run the (abstracted) curve fit, convert the parameters.
`none` models the `UnboundLocalError` raised on an unrecognized
`decay_type`. -/
def decay_fit (curveFit : (ℕ → ℝ → ℝ → ℝ) → List ℕ → List ℝ → ℝ × ℝ)
    (xvals : List ℕ) (yvals : List ℝ) (decay_type : String) : Option (ℝ × ℝ) :=
  if decay_type = "Measurement_crosstalk" then
    convert_params (curveFit measurement_crosstalk xvals yvals) decay_type
  else if decay_type = "Reset_crosstalk" then
    convert_params (curveFit reset_crosstalk xvals yvals) decay_type
  else none

end decay_analysis_functions

namespace rb_analysis_functions

/-- The in-memory shape `rb_analysis_combined` reads: the shared
sequence lengths, one table per qubit-group giving the list of
per-repetition counts at each length, and the shot count. -/
structure RbCombinedData where
  xvals : List ℕ
  groups : List (ℕ → List ℝ)
  shots : ℝ

/-- The pooled table `ylist` built by `rb_analysis_combined`: at each
sequence length, the per-repetition counts of all qubit-groups,
concatenated. -/
def pooledTable (d : RbCombinedData) (x : ℕ) : List ℝ :=
  (d.groups.map (fun g => g x)).flatten

/-- Embedding of `rb_analysis_combined` of `rb_analysis_functions.py`: pool the raw
per-repetition counts of all qubit-groups into `ylist`, average each
pooled column into `yvals`, then run the fit (`expoential_fit`,
abstracted as `F`) once on `yvals` and the bootstrap (abstracted as
`B`, receiving the pooled table and the shots) once, returning
`(1 - rate, (rate_upper - rate_lower)/2)`. -/
def rb_analysis_combined (F : List ℕ → List ℝ → ℝ × ℝ)
    (B : (ℕ → List ℝ) → ℝ → ℝ × ℝ) (d : RbCombinedData) : ℝ × ℝ :=
  let yvals := d.xvals.map (fun x => listMean (pooledTable d x) / d.shots)
  let fit_info := F d.xvals yvals
  let boot_info := B (pooledTable d) d.shots
  (1 - fit_info.2, (boot_info.2 - boot_info.1) / 2)

/-- Modelled from the spec's words, for contrast with
`rb_analysis_combined` (the spec says the device-wide metric is *not*
this): fit each qubit-group separately and average the per-group
results. -/
def fit_then_averaged_spec (F : List ℕ → List ℝ → ℝ × ℝ) (d : RbCombinedData) : ℝ :=
  listMean (d.groups.map (fun g =>
    1 - (F d.xvals (d.xvals.map (fun x => listMean (g x) / d.shots))).2))

end rb_analysis_functions

namespace decay_analysis_functions

/-- The in-memory shape `decay_analysis_combined` reads: shared
sequence lengths, one count per qubit-group and length, shot count. -/
structure DecayCombinedData where
  xvals : List ℕ
  groups : List (ℕ → ℝ)
  shots : ℝ

/-- The pooled table `ylist` built by `decay_analysis_combined`: at
each length the counts of all qubit-groups, summed. -/
def pooledCounts (d : DecayCombinedData) (x : ℕ) : ℝ :=
  (d.groups.map (fun g => g x)).sum

/-- Embedding of `decay_analysis_combined` of `decay_analysis_functions.py`: sum
the raw counts of all qubit-groups into `ylist`, divide by
`shots * len(qlist)` to get `yvals`, then run the fit (`decay_fit`,
abstracted as `F`) once and the bootstrap (abstracted as `B`,
receiving the pooled table and `shots * len(qlist)`) once, returning
`(rate, (upper - lower)/2)`. -/
def decay_analysis_combined (F : List ℕ → List ℝ → ℝ × ℝ)
    (B : (ℕ → ℝ) → ℝ → ℝ × ℝ) (d : DecayCombinedData) : ℝ × ℝ :=
  let yvals := d.xvals.map (fun x => pooledCounts d x / d.shots / d.groups.length)
  let fit_info := F d.xvals yvals
  let boot_info := B (pooledCounts d) (d.shots * d.groups.length)
  (fit_info.2, (boot_info.2 - boot_info.1) / 2)

end decay_analysis_functions

namespace spam_reporting_functions

/-- The in-memory shape `spam_combined` reads: per qubit-group the
success counts for prepared `'0'` and prepared `'1'`, and the shot
count. -/
structure SpamData where
  survival : List (ℝ × ℝ)
  shots : ℝ

/-- The local `res['0']` of `spam_combined`: the mean over qubit-groups
of the per-group success fraction for prepared `'0'`,
`sum(spam_results[q]['0']/shots/nqubits for q ...)`. -/
def res0 (d : SpamData) : ℝ :=
  (d.survival.map (fun p => p.1 / d.shots / (d.survival.length : ℝ))).sum

/-- The local `res['1']` of `spam_combined`. -/
def res1 (d : SpamData) : ℝ :=
  (d.survival.map (fun p => p.2 / d.shots / (d.survival.length : ℝ))).sum

/-- Embedding of `spam_combined` of `spam_reporting_functions.py`: per-state mean
success fractions `res`, their binomial uncertainties `res_unc`, the
average fidelity `fid` and its uncertainty; returns
`(1 - fid, unc, res, res_unc)`. -/
def spam_combined (d : SpamData) : ℝ × ℝ × (ℝ × ℝ) × (ℝ × ℝ) :=
  (1 - (res0 d + res1 d) / 2,
   Real.sqrt (res0 d * (1 - res0 d) + res1 d * (1 - res1 d)) / 2 /
     Real.sqrt (d.shots * (d.survival.length : ℝ)),
   (res0 d, res1 d),
   (Real.sqrt (res0 d * (1 - res0 d) / d.shots),
    Real.sqrt (res1 d * (1 - res1 d) / d.shots)))

/-- The pooled success fraction for prepared state `'0'`: total
successes over total shots across all qubit-groups. -/
def pooled_frac0 (d : SpamData) : ℝ :=
  (d.survival.map Prod.fst).sum / (d.shots * d.survival.length)

/-- The pooled success fraction for prepared state `'1'`. -/
def pooled_frac1 (d : SpamData) : ℝ :=
  (d.survival.map Prod.snd).sum / (d.shots * d.survival.length)

end spam_reporting_functions

namespace combined_analysis

open spam_reporting_functions

/-- One iteration of the `for test in test_list` loop of
`extract_parameters` in `combined_analysis.py`.  `base` abstracts
`rb_analysis_combined(..., test)`, `leak` abstracts
`rb_analysis_combined(..., test, 'leakage_postselect')` with `none`
modelling the `KeyError` raised when the leakage data is absent
(caught by `except KeyError: pass`), `decay` abstracts
`decay_analysis_combined`, and `spamData` feeds `spam_combined`.  The
state is the last value of the Python local `dim` (which persists
across iterations and may be unassigned) together with the entries of
`df` so far; the result is `none` when the iteration raises an
uncaught error (`dim` used while never assigned). -/
def extractStep (base : String → ℝ × ℝ) (leak : String → Option (ℝ × ℝ))
    (decay : String → ℝ × ℝ) (spamData : SpamData)
    (st : Option ℕ × List (String × (ℝ × ℝ))) (test : String) :
    Option (Option ℕ × List (String × (ℝ × ℝ))) :=
  if strContains test "RB" then
    let vu := base test
    let df1 := st.2 ++ [(test ++ "_legacy", vu)]
    let dim : Option ℕ :=
      if strContains test "TQ" then some 4
      else if strContains test "SQ" then some 2
      else st.1
    match leak test with
    | none => some (dim, df1)
    | some vl =>
      match dim with
      | none => none
      | some d =>
        some (dim, df1 ++ [(test ++ "_leakage", vl),
          (test, (vu.1 + vl.1 / d, Real.sqrt (vu.2 ^ 2 + vl.2 ^ 2 / (d : ℝ) ^ 2)))])
  else if test = "Measurement_crosstalk" ∨ test = "Reset_crosstalk" then
    some (st.1, st.2 ++ [(test, decay test)])
  else if test = "SPAM" then
    let r := spam_combined spamData
    some (st.1, st.2 ++ [(test ++ "0", (1 - r.2.2.1.1, r.2.2.2.1)),
      (test ++ "1", (1 - r.2.2.1.2, r.2.2.2.2)), (test, (r.1, r.2.1))])
  else some st

/-- The `for test in test_list` loop of `extract_parameters`, folded
over the remaining tests from a given state. -/
def extractAux (base : String → ℝ × ℝ) (leak : String → Option (ℝ × ℝ))
    (decay : String → ℝ × ℝ) (spamData : SpamData) :
    Option ℕ × List (String × (ℝ × ℝ)) → List String →
    Option (List (String × (ℝ × ℝ)))
  | st, [] => some st.2
  | st, t :: rest =>
    match extractStep base leak decay spamData st t with
    | none => none
    | some st1 => extractAux base leak decay spamData st1 rest

/-- Embedding of `extract_parameters` of `combined_analysis.py`, over an explicit
test list: fold the loop body from the empty `df` with `dim` not yet
assigned. -/
def extract_parameters (base : String → ℝ × ℝ) (leak : String → Option (ℝ × ℝ))
    (decay : String → ℝ × ℝ) (spamData : SpamData) (test_list : List String) :
    Option (List (String × (ℝ × ℝ))) :=
  extractAux base leak decay spamData (none, []) test_list

end combined_analysis

end

/-- C10: both crosstalk decay models evaluate at sequence length 0 to
exactly `1 - spam` for every spam parameter, independent of the rate
parameter `gamma`. -/
theorem C10_crosstalk_models_at_zero (spam gamma : ℝ) :
    decay_analysis_functions.measurement_crosstalk 0 spam gamma = 1 - spam ∧
    decay_analysis_functions.reset_crosstalk 0 spam gamma = 1 - spam := by
  constructor <;>
    simp [decay_analysis_functions.measurement_crosstalk,
      decay_analysis_functions.reset_crosstalk] <;> ring

/-- C2 counterexample: the claim's instance "raw rate 0.9 with n = 1
converts to 0.9" is false on the code: `convert_params` sends raw rate
0.9 at one qubit to (0.9 + 1)/2 = 0.95. -/
theorem C2_counterexample :
    rb_analysis_functions.convert_params (0, 0.9) 1 "survival" =
      some (1 / 2, 0.95) ∧ (0.95 : ℝ) ≠ 0.9 := by
  constructor
  · simp [rb_analysis_functions.convert_params]
    norm_num
  · norm_num

/-- C2 (amended): in the 'survival' variant the rate conversion is
`((2^n - 1) * r^(1/ntq) + 1) / 2^n` with exponent exactly `1` for one
qubit and exactly `1/1.5 = 2/3` for two qubits; in particular raw rate
0.9 converts to 0.95 for n = 1 and to `(3 * 0.9^(2/3) + 1)/4` for
n = 2. -/
theorem C2_survival_rate_conversion :
    (∀ A r : ℝ, rb_analysis_functions.convert_params (A, r) 1 "survival" =
      some (A + 1 / 2, (r + 1) / 2)) ∧
    (∀ A r : ℝ, rb_analysis_functions.convert_params (A, r) 2 "survival" =
      some (A + 1 / 4, (3 * r ^ ((2 : ℝ) / 3) + 1) / 4)) ∧
    rb_analysis_functions.convert_params (0, 0.9) 1 "survival" =
      some (1 / 2, 0.95) ∧
    rb_analysis_functions.convert_params (0, 0.9) 2 "survival" =
      some (1 / 4, (3 * (0.9 : ℝ) ^ ((2 : ℝ) / 3) + 1) / 4) := by
  have h23 : (1 : ℝ) / (1.5 : ℝ) = 2 / 3 := by norm_num
  refine ⟨fun A r => ?_, fun A r => ?_, ?_, ?_⟩
  · simp [rb_analysis_functions.convert_params]
    norm_num
  · simp [rb_analysis_functions.convert_params, h23]
    norm_num
  · simp [rb_analysis_functions.convert_params]
    norm_num
  · simp [rb_analysis_functions.convert_params, h23]
    norm_num

/-- C1 (code bug): composing `convert_params` with `convert_metrics`
in the 'leakage_postselect' variant does not round-trip: at raw pair
(0, 0) with one qubit the composite returns rate 1/2, off by far more
than the 1e-9 tolerance, and in general the composite rate is
`1 - (1 - p)/2` rather than `p`.  (The 'survival' and crosstalk pairs
do round-trip exactly; `convert_metrics` is used by the reporting
layer precisely to invert `convert_params` when overlaying fitted
curves, which this variant breaks.) -/
theorem C1_leakage_roundtrip_fails :
    ((rb_analysis_functions.convert_params (0, 0) 1 "leakage_postselect").bind
      (fun m => rb_analysis_functions.convert_metrics m 1 "leakage_postselect") =
      some (0, 1 / 2)) ∧
    ¬ |(1 / 2 : ℝ) - 0| ≤ 1e-9 ∧
    (∀ (p : ℝ × ℝ) (n : ℕ),
      (rb_analysis_functions.convert_params p n "leakage_postselect").bind
        (fun m => rb_analysis_functions.convert_metrics m n "leakage_postselect") =
      some (p.1, 1 - (1 - p.2) / 2)) := by
  refine ⟨?_, by
    rw [sub_zero, abs_of_pos (by norm_num : (0 : ℝ) < 1 / 2)]; norm_num,
    fun p n => ?_⟩
  · simp [rb_analysis_functions.convert_params,
      rb_analysis_functions.convert_metrics]
    norm_num
  · by_cases h : n = 2 <;>
      (simp [rb_analysis_functions.convert_params,
        rb_analysis_functions.convert_metrics, h]; try ring)

/-- C9: for any model/variant tag other than the recognized ones, the
fit and parameter-conversion operations return the error value `none`
(modelling the exception raised by the fall-through `if`/`elif`)
rather than silently defaulting to a recognized model. -/
theorem C9_unknown_tag_errors :
    (∀ s : String, s ≠ "survival" → s ≠ "leakage_postselect" →
      (∀ (p : ℝ × ℝ) (n : ℕ), rb_analysis_functions.convert_params p n s = none) ∧
      (∀ (p : ℝ × ℝ) (n : ℕ), rb_analysis_functions.convert_metrics p n s = none) ∧
      (∀ cf xs ys n g, rb_analysis_functions.expoential_fit cf xs ys n g s = none)) ∧
    (∀ s : String, s ≠ "Measurement_crosstalk" → s ≠ "Reset_crosstalk" →
      (∀ p : ℝ × ℝ, decay_analysis_functions.convert_params p s = none) ∧
      (∀ p : ℝ × ℝ, decay_analysis_functions.convert_metrics p s = none) ∧
      (∀ cf xs ys, decay_analysis_functions.decay_fit cf xs ys s = none)) := by
  constructor
  · intro s h1 h2
    refine ⟨fun p n => ?_, fun p n => ?_, fun cf xs ys n g => ?_⟩ <;>
      simp [rb_analysis_functions.convert_params,
        rb_analysis_functions.convert_metrics,
        rb_analysis_functions.expoential_fit, h1, h2]
  · intro s h1 h2
    refine ⟨fun p => ?_, fun p => ?_, fun cf xs ys => ?_⟩ <;>
      simp [decay_analysis_functions.convert_params,
        decay_analysis_functions.convert_metrics,
        decay_analysis_functions.decay_fit, h1, h2]

/-- C7: for the plain RB exponential model with asymptote `1/2^n`, the
survival probability at length 0 is `A + 1/2^n`, and for `A ≥ 0` and
`0 ≤ r ≤ 1` the curve is monotonically decreasing, stays above the
asymptote, and (whenever anything decays at all, i.e. `r < 1`) tends
to the asymptote as the length grows. -/
theorem C7_rb_model_decay (n : ℕ) (A r : ℝ) (hA : 0 ≤ A) (hr0 : 0 ≤ r)
    (hr1 : r ≤ 1) :
    rb_analysis_functions.exponential_with_asymptote 0 A r (1 / 2 ^ n) =
      A + 1 / 2 ^ n ∧
    Antitone (fun m : ℕ =>
      rb_analysis_functions.exponential_with_asymptote m A r (1 / 2 ^ n)) ∧
    (∀ m : ℕ, 1 / 2 ^ n ≤
      rb_analysis_functions.exponential_with_asymptote m A r (1 / 2 ^ n)) ∧
    (r < 1 → Filter.Tendsto (fun m : ℕ =>
        rb_analysis_functions.exponential_with_asymptote m A r (1 / 2 ^ n))
      Filter.atTop (nhds (1 / 2 ^ n))) := by
  refine ⟨by simp [rb_analysis_functions.exponential_with_asymptote], ?_, ?_, ?_⟩
  · intro a b hab
    exact add_le_add_right
      (mul_le_mul_of_nonneg_left (pow_le_pow_of_le_one hr0 hr1 hab) hA) _
  · intro m
    have h := mul_nonneg hA (pow_nonneg hr0 m)
    simp only [rb_analysis_functions.exponential_with_asymptote]
    linarith
  · intro hlt
    have h := ((tendsto_pow_atTop_nhds_zero_of_lt_one hr0 hlt).const_mul
      A).add_const (1 / 2 ^ n)
    simpa [rb_analysis_functions.exponential_with_asymptote] using h

/-- C7 witness: the theorem instantiated at `n = 1`, `A = r = 1/2`. -/
theorem C7_rb_model_decay_witness :
    ((0 : ℝ) ≤ 1 / 2 ∧ (0 : ℝ) ≤ 1 / 2 ∧ (1 / 2 : ℝ) ≤ 1) ∧
    (rb_analysis_functions.exponential_with_asymptote 0 (1 / 2) (1 / 2) (1 / 2 ^ 1) =
      1 / 2 + 1 / 2 ^ 1 ∧
    Antitone (fun m : ℕ =>
      rb_analysis_functions.exponential_with_asymptote m (1 / 2) (1 / 2) (1 / 2 ^ 1)) ∧
    (∀ m : ℕ, 1 / 2 ^ 1 ≤
      rb_analysis_functions.exponential_with_asymptote m (1 / 2) (1 / 2) (1 / 2 ^ 1)) ∧
    ((1 / 2 : ℝ) < 1 → Filter.Tendsto (fun m : ℕ =>
        rb_analysis_functions.exponential_with_asymptote m (1 / 2) (1 / 2) (1 / 2 ^ 1))
      Filter.atTop (nhds (1 / 2 ^ 1)))) :=
  ⟨⟨by norm_num, by norm_num, by norm_num⟩,
   C7_rb_model_decay 1 (1 / 2) (1 / 2) (by norm_num) (by norm_num) (by norm_num)⟩

/-- Lemma: `np.quantile` on a one-element list is that element, for every
quantile level. -/
theorem npQuantile_singleton (v q : ℝ) : npQuantile [v] q = v := by
  simp [npQuantile, List.insertionSort, List.orderedInsert]

/-- C3: both bootstrap routines reduce a metric's resampled values to
`(2*mean - quantile(vals, p), 2*mean - quantile(vals, 1-p))` with
`p = 1/2 + erf(1/sqrt 2)/2`, and with a single resample both bounds
collapse to the single fitted value. -/
theorem C3_bootstrap_interval :
    (∀ vals : List ℝ, boot_uncertainty vals =
      (2 * (vals.sum / vals.length) -
        npQuantile vals (1 / 2 + erf (1 / Real.sqrt 2) / 2),
       2 * (vals.sum / vals.length) -
        npQuantile vals (1 - (1 / 2 + erf (1 / Real.sqrt 2) / 2)))) ∧
    (∀ v : ℝ, boot_uncertainty [v] = (v, v)) := by
  constructor
  · intro vals
    rfl
  · intro v
    simp [boot_uncertainty, npQuantile_singleton, listMean]
    ring

/-- The mean of a concatenation is total sum over total length. -/
theorem listMean_flatten (L : List (List ℝ)) :
    listMean L.flatten =
      (L.map List.sum).sum / (L.map (fun l => (l.length : ℝ))).sum := by
  unfold listMean
  rw [List.sum_flatten, List.length_flatten]
  congr 1
  push_cast
  rw [List.map_map]
  rfl

/-- C5: the device-wide metric is computed by pooling the raw
per-repetition counts of all qubit-groups and fitting once on the
pooled table — the survival fractions handed to the fit are the pooled
ones (total counts over total repetitions, per length) for RB, and the
summed counts over `shots * len(qlist)` for decay — and this is not
equivalent to fitting each group separately and averaging: a concrete
fit and dataset separate the two. -/
theorem C5_pooled_then_fit :
    (∀ (F : List ℕ → List ℝ → ℝ × ℝ) (B : (ℕ → List ℝ) → ℝ → ℝ × ℝ)
      (d : rb_analysis_functions.RbCombinedData),
      (rb_analysis_functions.rb_analysis_combined F B d).1 =
        1 - (F d.xvals (d.xvals.map (fun x =>
          ((d.groups.map (fun g => (g x).sum)).sum /
            (d.groups.map (fun g => ((g x).length : ℝ))).sum) / d.shots))).2) ∧
    (∀ (F : List ℕ → List ℝ → ℝ × ℝ) (B : (ℕ → ℝ) → ℝ → ℝ × ℝ)
      (d : decay_analysis_functions.DecayCombinedData),
      (decay_analysis_functions.decay_analysis_combined F B d).1 =
        (F d.xvals (d.xvals.map (fun x =>
          (d.groups.map (fun g => g x)).sum /
            (d.shots * d.groups.length)))).2) ∧
    (∃ (F : List ℕ → List ℝ → ℝ × ℝ)
      (d : rb_analysis_functions.RbCombinedData)
      (B : (ℕ → List ℝ) → ℝ → ℝ × ℝ),
      (rb_analysis_functions.rb_analysis_combined F B d).1 ≠
        rb_analysis_functions.fit_then_averaged_spec F d) := by
  refine ⟨fun F B d => ?_, fun F B d => ?_, ?_⟩
  · have hfun : (fun x : ℕ =>
        listMean (rb_analysis_functions.pooledTable d x) / d.shots) =
        (fun x => ((d.groups.map (fun g => (g x).sum)).sum /
          (d.groups.map (fun g => ((g x).length : ℝ))).sum) / d.shots) := by
      funext x
      rw [rb_analysis_functions.pooledTable, listMean_flatten,
        List.map_map, List.map_map]
      rfl
    show 1 - (F d.xvals (d.xvals.map (fun x =>
      listMean (rb_analysis_functions.pooledTable d x) / d.shots))).2 = _
    rw [hfun]
  · have hfun : (fun x : ℕ =>
        decay_analysis_functions.pooledCounts d x / d.shots / d.groups.length) =
        (fun x => (d.groups.map (fun g => g x)).sum /
          (d.shots * d.groups.length)) := by
      funext x
      rw [decay_analysis_functions.pooledCounts, div_div]
    show (F d.xvals (d.xvals.map (fun x =>
      decay_analysis_functions.pooledCounts d x / d.shots / d.groups.length))).2 = _
    rw [hfun]
  · refine ⟨fun _ ys => (0, (ys.headD 0) ^ 2),
      ⟨[0], [fun _ => [0], fun _ => [1]], 1⟩, fun _ _ => (0, 0), ?_⟩
    norm_num [rb_analysis_functions.rb_analysis_combined,
      rb_analysis_functions.pooledTable,
      rb_analysis_functions.fit_then_averaged_spec, listMean]

/-- C4: in `extract_parameters`, an RB test whose leakage-post-selected
fit is available gets the device-wide entry
`(base + leakage/dim, sqrt(base_unc^2 + leakage_unc^2/dim^2))` with
`dim = 4` for two-qubit tests and `dim = 2` for single-qubit tests,
next to the legacy and leakage entries. -/
theorem C4_leakage_correction
    (base : String → ℝ × ℝ) (leak : String → Option (ℝ × ℝ))
    (decay : String → ℝ × ℝ) (spamData : spam_reporting_functions.SpamData)
    (st : Option ℕ × List (String × (ℝ × ℝ))) (t : String) (vl : ℝ × ℝ)
    (hleak : leak t = some vl) (hRB : strContains t "RB" = true) :
    (strContains t "TQ" = true →
      combined_analysis.extractStep base leak decay spamData st t =
        some (some 4, st.2 ++ [(t ++ "_legacy", base t), (t ++ "_leakage", vl),
          (t, ((base t).1 + vl.1 / 4,
            Real.sqrt ((base t).2 ^ 2 + vl.2 ^ 2 / 4 ^ 2)))])) ∧
    (strContains t "TQ" = false → strContains t "SQ" = true →
      combined_analysis.extractStep base leak decay spamData st t =
        some (some 2, st.2 ++ [(t ++ "_legacy", base t), (t ++ "_leakage", vl),
          (t, ((base t).1 + vl.1 / 2,
            Real.sqrt ((base t).2 ^ 2 + vl.2 ^ 2 / 2 ^ 2)))])) := by
  constructor
  · intro hTQ
    simp [combined_analysis.extractStep, hRB, hTQ, hleak]
  · intro hTQ hSQ
    simp [combined_analysis.extractStep, hRB, hTQ, hSQ, hleak]

/-- C4 witness: a two-qubit RB test with leakage data present. -/
theorem C4_leakage_correction_witness :
    combined_analysis.extractStep (fun _ => (0, 1)) (fun _ => some (2, 3))
      (fun _ => (0, 0)) ⟨[], 1⟩ (none, []) "TQ_RB" =
      some (some 4, [("TQ_RB" ++ "_legacy", ((0 : ℝ), (1 : ℝ))),
        ("TQ_RB" ++ "_leakage", ((2 : ℝ), (3 : ℝ))),
        ("TQ_RB", ((0 : ℝ) + 2 / 4, Real.sqrt ((1 : ℝ) ^ 2 + 3 ^ 2 / 4 ^ 2)))]) :=
  (C4_leakage_correction (fun _ => (0, 1)) (fun _ => some (2, 3)) (fun _ => (0, 0))
    ⟨[], 1⟩ (none, []) "TQ_RB" (2, 3) rfl rfl).1 rfl

/-- C8: when the leakage-post-selected data is absent (the leakage fit
raises `KeyError`), the aggregation emits only the legacy entry for
that RB test, raises no error, and continues with the remaining
tests. -/
theorem C8_missing_leakage_skipped
    (base : String → ℝ × ℝ) (leak : String → Option (ℝ × ℝ))
    (decay : String → ℝ × ℝ) (spamData : spam_reporting_functions.SpamData)
    (st : Option ℕ × List (String × (ℝ × ℝ))) (t : String) (rest : List String)
    (hRB : strContains t "RB" = true) (hleak : leak t = none) :
    combined_analysis.extractAux base leak decay spamData st (t :: rest) =
      combined_analysis.extractAux base leak decay spamData
        ((if strContains t "TQ" then some 4
          else if strContains t "SQ" then some 2 else st.1),
         st.2 ++ [(t ++ "_legacy", base t)]) rest := by
  simp [combined_analysis.extractAux, combined_analysis.extractStep, hRB, hleak]

/-- C8 witness: a memory RB test with no leakage data is processed
without error and yields only its legacy entry. -/
theorem C8_missing_leakage_skipped_witness :
    combined_analysis.extractAux (fun _ => ((0 : ℝ), (0 : ℝ))) (fun _ => none)
      (fun _ => (0, 0)) ⟨[], 1⟩ (none, []) ["Memory_RB"] =
      combined_analysis.extractAux (fun _ => ((0 : ℝ), (0 : ℝ))) (fun _ => none)
        (fun _ => (0, 0)) ⟨[], 1⟩
        ((if strContains "Memory_RB" "TQ" then some 4
          else if strContains "Memory_RB" "SQ" then some 2 else none),
         [] ++ [("Memory_RB" ++ "_legacy", ((0 : ℝ), (0 : ℝ)))]) [] :=
  C8_missing_leakage_skipped (fun _ => (0, 0)) (fun _ => none) (fun _ => (0, 0))
    ⟨[], 1⟩ (none, []) "Memory_RB" [] rfl rfl

/-- Summing a list divided elementwise twice equals the sum divided by
the product. -/
theorem sum_div_div (l : List ℝ) (a b : ℝ) :
    (l.map (fun x => x / a / b)).sum = l.sum / (a * b) := by
  induction l with
  | nil => simp
  | cons x t ih =>
    rw [List.map_cons, List.sum_cons, ih, div_div, List.sum_cons, add_div]

/-- Lemma: `res['0']` of `spam_combined` is the pooled success fraction for
prepared `'0'`. -/
theorem res0_eq_pooled (d : spam_reporting_functions.SpamData) :
    spam_reporting_functions.res0 d = spam_reporting_functions.pooled_frac0 d := by
  unfold spam_reporting_functions.res0 spam_reporting_functions.pooled_frac0
  rw [show (fun p : ℝ × ℝ => p.1 / d.shots / (d.survival.length : ℝ)) =
    ((fun x : ℝ => x / d.shots / (d.survival.length : ℝ)) ∘ Prod.fst) from rfl,
    ← List.map_map, sum_div_div]

/-- Lemma: `res['1']` of `spam_combined` is the pooled success fraction for
prepared `'1'`. -/
theorem res1_eq_pooled (d : spam_reporting_functions.SpamData) :
    spam_reporting_functions.res1 d = spam_reporting_functions.pooled_frac1 d := by
  unfold spam_reporting_functions.res1 spam_reporting_functions.pooled_frac1
  rw [show (fun p : ℝ × ℝ => p.2 / d.shots / (d.survival.length : ℝ)) =
    ((fun x : ℝ => x / d.shots / (d.survival.length : ℝ)) ∘ Prod.snd) from rfl,
    ← List.map_map, sum_div_div]

/-- C6: the combined SPAM value is `(err0 + err1)/2` with
`err_s = 1 - (pooled success fraction for state s)`, and the
aggregation layer additionally reports the two per-state pooled errors
`1 - res['0']` and `1 - res['1']` as their own entries, independent of
the combined average. -/
theorem C6_spam_combined (d : spam_reporting_functions.SpamData) :
    (spam_reporting_functions.spam_combined d).1 =
      ((1 - spam_reporting_functions.pooled_frac0 d) +
       (1 - spam_reporting_functions.pooled_frac1 d)) / 2 ∧
    (spam_reporting_functions.spam_combined d).2.2.1 =
      (spam_reporting_functions.pooled_frac0 d,
       spam_reporting_functions.pooled_frac1 d) ∧
    (∀ (base : String → ℝ × ℝ) (leak : String → Option (ℝ × ℝ))
      (decay : String → ℝ × ℝ),
      combined_analysis.extract_parameters base leak decay d ["SPAM"] =
        some [("SPAM0", (1 - spam_reporting_functions.pooled_frac0 d,
                (spam_reporting_functions.spam_combined d).2.2.2.1)),
              ("SPAM1", (1 - spam_reporting_functions.pooled_frac1 d,
                (spam_reporting_functions.spam_combined d).2.2.2.2)),
              ("SPAM", ((spam_reporting_functions.spam_combined d).1,
                (spam_reporting_functions.spam_combined d).2.1))]) := by
  refine ⟨?_, ?_, fun base leak decay => ?_⟩
  · show 1 - (spam_reporting_functions.res0 d +
      spam_reporting_functions.res1 d) / 2 = _
    rw [res0_eq_pooled, res1_eq_pooled]
    ring
  · show (spam_reporting_functions.res0 d, spam_reporting_functions.res1 d) = _
    rw [res0_eq_pooled, res1_eq_pooled]
  · have h1 : strContains "SPAM" "RB" = false := by decide
    have h2 : ("SPAM" : String) ≠ "Measurement_crosstalk" := by decide
    have h3 : ("SPAM" : String) ≠ "Reset_crosstalk" := by decide
    have hs0 : "SPAM" ++ "0" = "SPAM0" := rfl
    have hs1 : "SPAM" ++ "1" = "SPAM1" := rfl
    simp [combined_analysis.extract_parameters, combined_analysis.extractAux,
      combined_analysis.extractStep, h1, h2, h3, hs0, hs1,
      res0_eq_pooled, res1_eq_pooled, spam_reporting_functions.spam_combined]

/-- C9 witness: the tag "bogus" is rejected by every operation. -/
theorem C9_unknown_tag_errors_witness :
    rb_analysis_functions.convert_params (0, 0) 1 "bogus" = none ∧
    decay_analysis_functions.convert_params (0, 0) "bogus" = none :=
  ⟨(C9_unknown_tag_errors.1 "bogus" (by decide) (by decide)).1 (0, 0) 1,
   (C9_unknown_tag_errors.2 "bogus" (by decide) (by decide)).1 (0, 0)⟩
